import Mathlib

/-!
Shallow embedding of the Portfolio Risk Analytics surface of the DefiHedge
repository (frontend/src/services/api.ts, frontend/src/utils/performance.ts,
frontend/src/components/RiskAnalysisDashboard.tsx,
frontend/src/components/CorrelationHeatmap.tsx).

Numbers are modelled as rationals; the TypeScript interfaces become
structures; the mock-report generator, the diversification classifiers, the
API cache and the chart downsampler are translated function by function from
the source.
-/

namespace DefiHedge

/-! Data model, from the interfaces in frontend/src/services/api.ts (which
the component files repeat verbatim). -/

structure RiskContributionData where
  asset : String
  risk_contribution : ℚ
  portfolio_weight : ℚ
deriving DecidableEq

structure RiskContributionResponse where
  data : List RiskContributionData
  total_portfolio_risk : ℚ
  analysis_date : String
deriving DecidableEq

structure CorrelationData where
  asset1 : String
  asset2 : String
  correlation : ℚ
deriving DecidableEq

structure CorrelationSummary where
  average_correlation : ℚ
  max_correlation : ℚ
  min_correlation : ℚ
  diversification_ratio : ℚ
deriving DecidableEq

structure CorrelationResponse where
  data : List CorrelationData
  assets : List String
  summary : CorrelationSummary
  analysis_date : String
deriving DecidableEq

structure FrontierPoint where
  «return» : ℚ
  risk : ℚ
  sharpe_ratio : ℚ
deriving DecidableEq

structure PortfolioPoint where
  «return» : ℚ
  risk : ℚ
  sharpe_ratio : ℚ
deriving DecidableEq

structure OptimalPortfolios where
  max_sharpe : PortfolioPoint
  min_volatility : PortfolioPoint
deriving DecidableEq

structure EfficientFrontierResponse where
  frontier_points : List FrontierPoint
  current_portfolio : PortfolioPoint
  optimal_portfolios : OptimalPortfolios
  analysis_date : String
deriving DecidableEq

structure PortfolioMetricsResponse where
  annual_return : ℚ
  annual_volatility : ℚ
  sharpe_ratio : ℚ
  var_95 : ℚ
  max_drawdown : ℚ
  calmar_ratio : ℚ
  sortino_ratio : ℚ
  analysis_period_days : ℚ
  analysis_date : String
deriving DecidableEq

structure CompleteRiskAnalysis where
  risk_contribution : RiskContributionResponse
  correlation : CorrelationResponse
  efficient_frontier : EfficientFrontierResponse
  portfolio_metrics : PortfolioMetricsResponse
deriving DecidableEq

/-- Field names of the CompleteRiskAnalysisResponse interface
(frontend/src/services/api.ts lines 122 to 127), in declaration order. -/
def completeRiskAnalysisFields : List String :=
  ["risk_contribution", "correlation", "efficient_frontier", "portfolio_metrics"]

/-- Field names of the PortfolioMetricsResponse interface paired with their
declared TypeScript types (frontend/src/services/api.ts lines 110 to 120). -/
def portfolioMetricsFields : List (String × String) :=
  [("annual_return", "number"), ("annual_volatility", "number"),
   ("sharpe_ratio", "number"), ("var_95", "number"), ("max_drawdown", "number"),
   ("calmar_ratio", "number"), ("sortino_ratio", "number"),
   ("analysis_period_days", "number"), ("analysis_date", "string")]

/-! Diversification classifiers. -/

structure DiversificationScore where
  score : String
  color : String
  description : String
deriving DecidableEq

/-- getDiversificationScore from CorrelationHeatmap.tsx lines 52 to 73. -/
def getDiversificationScore (ratio : ℚ) : DiversificationScore :=
  if ratio > 0.7 then
    ⟨"Excellent", "text-green-600", "Very well diversified portfolio"⟩
  else if ratio > 0.5 then
    ⟨"Good", "text-blue-600", "Well diversified with room for improvement"⟩
  else if ratio > 0.3 then
    ⟨"Fair", "text-yellow-600",
      "Moderate diversification, consider adding uncorrelated assets"⟩
  else
    ⟨"Poor", "text-red-600", "Highly correlated assets, poor diversification"⟩

structure DiversificationLevel where
  level : String
  color : String
deriving DecidableEq

/-- getDiversificationLevel from RiskAnalysisDashboard.tsx lines 217 to 222. -/
def getDiversificationLevel (ratio : ℚ) : DiversificationLevel :=
  if ratio > 0.7 then ⟨"Excellent", "bg-green-100 text-green-800"⟩
  else if ratio > 0.5 then ⟨"Good", "bg-blue-100 text-blue-800"⟩
  else if ratio > 0.3 then ⟨"Fair", "bg-yellow-100 text-yellow-800"⟩
  else ⟨"Poor", "bg-red-100 text-red-800"⟩

/-- generateMockData from RiskAnalysisDashboard.tsx lines 96 to 174. The
impure new Date().toISOString() timestamp is passed in as a parameter. -/
def generateMockData (now : String) : CompleteRiskAnalysis :=
  { risk_contribution :=
      { data :=
          [⟨"ETH", 45.2, 35.0⟩, ⟨"USDC", 15.1, 30.0⟩,
           ⟨"MATIC", 25.3, 20.0⟩, ⟨"LINK", 14.4, 15.0⟩],
        total_portfolio_risk := 18.5,
        analysis_date := now },
    correlation :=
      { data :=
          [⟨"ETH", "ETH", 1.0⟩, ⟨"ETH", "USDC", -0.12⟩,
           ⟨"ETH", "MATIC", 0.78⟩, ⟨"ETH", "LINK", 0.65⟩,
           ⟨"USDC", "ETH", -0.12⟩, ⟨"USDC", "USDC", 1.0⟩,
           ⟨"USDC", "MATIC", -0.05⟩, ⟨"USDC", "LINK", 0.02⟩,
           ⟨"MATIC", "ETH", 0.78⟩, ⟨"MATIC", "USDC", -0.05⟩,
           ⟨"MATIC", "MATIC", 1.0⟩, ⟨"MATIC", "LINK", 0.72⟩,
           ⟨"LINK", "ETH", 0.65⟩, ⟨"LINK", "USDC", 0.02⟩,
           ⟨"LINK", "MATIC", 0.72⟩, ⟨"LINK", "LINK", 1.0⟩],
        assets := ["ETH", "USDC", "MATIC", "LINK"],
        summary :=
          { average_correlation := 0.42, max_correlation := 0.78,
            min_correlation := -0.12, diversification_ratio := 0.58 },
        analysis_date := now },
    efficient_frontier :=
      { frontier_points :=
          [⟨8.5, 12.5, 0.68⟩, ⟨12.2, 15.8, 0.77⟩, ⟨15.8, 18.5, 0.85⟩,
           ⟨19.5, 22.1, 0.88⟩, ⟨23.2, 26.8, 0.87⟩, ⟨26.8, 32.5, 0.82⟩],
        current_portfolio := ⟨16.5, 21.2, 0.78⟩,
        optimal_portfolios :=
          { max_sharpe := ⟨19.5, 22.1, 0.88⟩,
            min_volatility := ⟨8.5, 12.5, 0.68⟩ },
        analysis_date := now },
    portfolio_metrics :=
      { annual_return := 16.5, annual_volatility := 21.2, sharpe_ratio := 0.78,
        var_95 := -5.2, max_drawdown := -18.5, calmar_ratio := 0.89,
        sortino_ratio := 1.12, analysis_period_days := 365,
        analysis_date := now } }

/-- A frontier point and a portfolio point carry the same three numeric
fields; this compares them componentwise. -/
def matchesPoint (p : FrontierPoint) (q : PortfolioPoint) : Bool :=
  decide (p.«return» = q.«return») && decide (p.risk = q.risk) &&
    decide (p.sharpe_ratio = q.sharpe_ratio)

/-- Every pairwise entry has a mirror entry with the two assets swapped and
the same correlation value. -/
def correlationSymmetric (entries : List CorrelationData) : Bool :=
  entries.all fun e =>
    entries.any fun f =>
      f.asset1 == e.asset2 && f.asset2 == e.asset1 &&
        decide (f.correlation = e.correlation)

/-- Every entry pairing an asset with itself has correlation exactly 1. -/
def correlationUnitDiagonal (entries : List CorrelationData) : Bool :=
  entries.all fun e => !(e.asset1 == e.asset2) || decide (e.correlation = 1)

/-- The off-diagonal correlation entries: asset pairs with distinct assets. -/
def offDiagonalEntries (entries : List CorrelationData) : List CorrelationData :=
  entries.filter fun e => !(e.asset1 == e.asset2)

/-! APICache from frontend/src/utils/performance.ts lines 7 to 39. The
JavaScript Map becomes an association list with unique keys; Date.now()
timestamps are integer milliseconds passed explicitly. -/

structure CacheEntry (α : Type) where
  data : α
  timestamp : ℤ
  ttl : ℤ
deriving DecidableEq

def Cache (α : Type) : Type := List (String × CacheEntry α)

instance (α : Type) [DecidableEq α] : DecidableEq (Cache α) :=
  inferInstanceAs (DecidableEq (List (String × CacheEntry α)))

/-- Map.set semantics: replace the entry for the key in place if present,
otherwise append it. -/
def mapSet {α : Type} (c : Cache α) (key : String) (e : CacheEntry α) : Cache α :=
  match c with
  | [] => [(key, e)]
  | p :: rest => if p.1 == key then (key, e) :: rest else p :: mapSet rest key e

/-- APICache.set: store data under the key with ttl converted from minutes
to milliseconds, stamped with the current time. -/
def cacheSet {α : Type} (c : Cache α) (key : String) (d : α)
    (ttlMinutes : ℤ) (now : ℤ) : Cache α :=
  mapSet c key ⟨d, now, ttlMinutes * 60 * 1000⟩

/-- APICache.get: a missing key returns null; an entry whose age exceeds its
ttl is deleted and null is returned; otherwise the stored data is returned.
The updated cache is returned alongside the lookup result. -/
def cacheGet {α : Type} (c : Cache α) (key : String) (now : ℤ) :
    Option α × Cache α :=
  match c.find? (fun p => p.1 == key) with
  | none => (none, c)
  | some pe =>
    if now - pe.2.timestamp > pe.2.ttl then
      (none, c.filter (fun p => !(p.1 == key)))
    else (some pe.2.data, c)

/-- cacheKeys.riskAnalysis from performance.ts lines 45 to 50. -/
def riskAnalysisKey (address : String) (lookback : ℤ) : String :=
  "risk:" ++ address ++ ":" ++ toString lookback

/-- getCompleteRiskAnalysis from api.ts lines 279 to 311: look the key up in
the cache and return the hit unchanged; on a miss, return the fresh backend
response and cache it for 10 minutes. The fresh parameter stands for the
response the POST request would produce at this moment. -/
def getCompleteRiskAnalysis {α : Type} (cache : Cache α) (address : String)
    (lookbackDays : ℤ) (now : ℤ) (fresh : α) : α × Cache α :=
  match cacheGet cache (riskAnalysisKey address lookbackDays) now with
  | (some cached, c2) => (cached, c2)
  | (none, c2) =>
    (fresh, cacheSet c2 (riskAnalysisKey address lookbackDays) fresh 10 now)

/-! Request URL construction for the four risk-analysis endpoints
(api.ts lines 279 to 344). Each helper in api.riskAnalysis takes an optional
lookbackDays which the class method defaults to 365; the query parameter is
only appended when the value differs from 365. -/

def riskAnalysisEndpointUrl (address endpoint : String) (lookbackDays : ℤ) :
    String :=
  "/portfolio/" ++ address ++ "/" ++ endpoint ++
    (if lookbackDays = 365 then ""
     else "?lookback_days=" ++ toString lookbackDays)

def getCompleteRiskAnalysisUrl (address : String) (lookbackDays : Option ℤ) :
    String :=
  riskAnalysisEndpointUrl address "risk-analysis" (lookbackDays.getD 365)

def getRiskContributionUrl (address : String) (lookbackDays : Option ℤ) :
    String :=
  riskAnalysisEndpointUrl address "risk-contribution" (lookbackDays.getD 365)

def getCorrelationAnalysisUrl (address : String) (lookbackDays : Option ℤ) :
    String :=
  riskAnalysisEndpointUrl address "correlation" (lookbackDays.getD 365)

def getEfficientFrontierUrl (address : String) (lookbackDays : Option ℤ) :
    String :=
  riskAnalysisEndpointUrl address "efficient-frontier" (lookbackDays.getD 365)

/-- Modelled from the spec: the backend validation of the lookback window is
not part of src/ (only the frontend callers are); the spec states the window
is configurable in the range 30 to 1095 calendar days. -/
def acceptedLookbackDays (d : ℤ) : Bool :=
  decide (30 ≤ d) && decide (d ≤ 1095)

/-- chartOptimization.downsampleData from performance.ts lines 139 to 147:
short inputs are returned unchanged; otherwise every step-th element is kept,
where step is the ceiling of length divided by maxPoints. -/
def downsampleData {α : Type} (data : List α) (maxPoints : ℕ) : List α :=
  if data.length ≤ maxPoints then data
  else
    ((data.enum).filter
        (fun p => p.1 % ((data.length + maxPoints - 1) / maxPoints) == 0)).map
      Prod.snd

/-! Theorems. -/

/-- Claim C1, counterexample: the claim says the classification functions
treat a diversification ratio of exactly 1.0 as indicating no diversification
benefit. In the code both classifiers put every ratio above 0.7 in the top
class, so a ratio of exactly 1.0 is classified Excellent with the description
Very well diversified portfolio, the opposite of no benefit. -/
theorem c1_counterexample :
    (getDiversificationScore 1).score = "Excellent" ∧
    (getDiversificationScore 1).description = "Very well diversified portfolio" ∧
    (getDiversificationLevel 1).level = "Excellent" ∧
    (getDiversificationScore 1).score ≠ "Poor" := by
  norm_num [getDiversificationScore, getDiversificationLevel]
  decide

/-- Claim C1, amended: getDiversificationScore and getDiversificationLevel
grade larger ratios as better diversification, with every ratio above 0.7
classified Excellent; in particular a ratio of exactly 1.0 receives the top
classification, not a no-diversification one. -/
theorem c1_ratio_above_07_excellent (r : ℚ) (h : r > 0.7) :
    (getDiversificationScore r).score = "Excellent" ∧
    (getDiversificationLevel r).level = "Excellent" := by
  unfold getDiversificationScore getDiversificationLevel
  rw [if_pos h, if_pos h]
  exact ⟨rfl, rfl⟩

/-- Claim C1, witness: the amended theorem applied at ratio 1. -/
theorem c1_ratio_above_07_excellent_witness :
    (1 : ℚ) > 0.7 ∧
    ((getDiversificationScore 1).score = "Excellent" ∧
      (getDiversificationLevel 1).level = "Excellent") :=
  ⟨by norm_num, c1_ratio_above_07_excellent 1 (by norm_num)⟩

/-- Claim C2, counterexample: in the risk-contribution report produced by
generateMockData the per-asset risk_contribution values sum to 100 (they are
percentage shares of total risk), while total_portfolio_risk is 18.5, so the
sum does not equal the total portfolio volatility. -/
theorem c2_counterexample :
    ((generateMockData "2025-01-01").risk_contribution.data.map
        (fun d => d.risk_contribution)).sum = 100 ∧
    (generateMockData "2025-01-01").risk_contribution.total_portfolio_risk
      = 18.5 ∧
    ((generateMockData "2025-01-01").risk_contribution.data.map
        (fun d => d.risk_contribution)).sum ≠
      (generateMockData "2025-01-01").risk_contribution.total_portfolio_risk := by
  norm_num [generateMockData]

/-- Claim C2, amended: the per-asset risk_contribution values of the report
produced by generateMockData are percentages of total portfolio risk and sum
to 100, each reported alongside the portfolio weight; they do not sum to the
total_portfolio_risk field. -/
theorem c2_contributions_sum_to_100 (now : String) :
    ((generateMockData now).risk_contribution.data.map
        (fun d => d.risk_contribution)).sum = 100 := by
  norm_num [generateMockData]

/-- Claim C3: in the efficient-frontier report produced by generateMockData,
the max_sharpe optimal portfolio coincides componentwise with one of the
frontier points, its sharpe_ratio is an upper bound of the sharpe_ratio over
all frontier points, and it is at least the current portfolio sharpe_ratio. -/
theorem c3_max_sharpe_on_frontier (now : String) :
    ((generateMockData now).efficient_frontier.frontier_points.any fun p =>
        matchesPoint p
          (generateMockData now).efficient_frontier.optimal_portfolios.max_sharpe)
      = true ∧
    ((generateMockData now).efficient_frontier.frontier_points.all fun p =>
        decide (p.sharpe_ratio ≤
          (generateMockData now).efficient_frontier.optimal_portfolios.max_sharpe.sharpe_ratio))
      = true ∧
    (generateMockData now).efficient_frontier.current_portfolio.sharpe_ratio ≤
      (generateMockData now).efficient_frontier.optimal_portfolios.max_sharpe.sharpe_ratio := by
  norm_num [generateMockData, matchesPoint]

/-- Claim C4: the pairwise correlation data produced by generateMockData is
symmetric, every diagonal entry equals exactly 1, and every listed asset has
its diagonal entry present with value 1. -/
theorem c4_correlation_symmetric_unit_diagonal (now : String) :
    correlationSymmetric (generateMockData now).correlation.data = true ∧
    correlationUnitDiagonal (generateMockData now).correlation.data = true ∧
    ((generateMockData now).correlation.assets.all fun a =>
        (generateMockData now).correlation.data.any fun e =>
          e.asset1 == a && e.asset2 == a && decide (e.correlation = 1))
      = true := by
  norm_num [generateMockData, correlationSymmetric, correlationUnitDiagonal]
  decide

/-- The off-diagonal entries of the mock correlation data, computed. -/
theorem offDiagonal_mock (now : String) :
    offDiagonalEntries (generateMockData now).correlation.data =
      [⟨"ETH", "USDC", -0.12⟩, ⟨"ETH", "MATIC", 0.78⟩, ⟨"ETH", "LINK", 0.65⟩,
       ⟨"USDC", "ETH", -0.12⟩, ⟨"USDC", "MATIC", -0.05⟩, ⟨"USDC", "LINK", 0.02⟩,
       ⟨"MATIC", "ETH", 0.78⟩, ⟨"MATIC", "USDC", -0.05⟩,
       ⟨"MATIC", "LINK", 0.72⟩, ⟨"LINK", "ETH", 0.65⟩, ⟨"LINK", "USDC", 0.02⟩,
       ⟨"LINK", "MATIC", 0.72⟩] := rfl

/-- Claim C5, counterexample: the arithmetic mean of the off-diagonal
correlation entries of the generateMockData report is 1/3, but the report
states average_correlation 0.42, so the summary average is not the mean of
the off-diagonal entries. -/
theorem c5_counterexample :
    ((offDiagonalEntries (generateMockData "2025-01-01").correlation.data).map
        (fun e => e.correlation)).sum /
      ((offDiagonalEntries
          (generateMockData "2025-01-01").correlation.data).length : ℚ)
      = 1 / 3 ∧
    (generateMockData "2025-01-01").correlation.summary.average_correlation
      = 0.42 ∧
    (0.42 : ℚ) ≠ 1 / 3 := by
  rw [offDiagonal_mock]
  norm_num [generateMockData]

/-- Claim C5, amended: in the generateMockData report, max_correlation and
min_correlation are exactly the maximum and minimum of the off-diagonal
correlation entries, but average_correlation is 0.42 while the arithmetic
mean of the off-diagonal entries is 1/3. -/
theorem c5_summary_stats (now : String) :
    ((offDiagonalEntries (generateMockData now).correlation.data).all fun e =>
        decide (e.correlation ≤
          (generateMockData now).correlation.summary.max_correlation)) = true ∧
    ((offDiagonalEntries (generateMockData now).correlation.data).any fun e =>
        decide (e.correlation =
          (generateMockData now).correlation.summary.max_correlation)) = true ∧
    ((offDiagonalEntries (generateMockData now).correlation.data).all fun e =>
        decide ((generateMockData now).correlation.summary.min_correlation ≤
          e.correlation)) = true ∧
    ((offDiagonalEntries (generateMockData now).correlation.data).any fun e =>
        decide (e.correlation =
          (generateMockData now).correlation.summary.min_correlation)) = true ∧
    ((offDiagonalEntries (generateMockData now).correlation.data).map
        (fun e => e.correlation)).sum /
      ((offDiagonalEntries (generateMockData now).correlation.data).length : ℚ)
      = 1 / 3 ∧
    (generateMockData now).correlation.summary.average_correlation = 0.42 := by
  rw [offDiagonal_mock]
  norm_num [generateMockData]

/-- Claim C6, counterexample: the CompleteRiskAnalysisResponse interface has
exactly four fields, all of them the four analysis sections, so the report
carries no excluded-assets list; and every scalar metric field of
PortfolioMetricsResponse is a bare number, so a computed value cannot be
distinguished from an undefined or excluded one by structure. -/
theorem c6_counterexample :
    completeRiskAnalysisFields.length = 4 ∧
    (completeRiskAnalysisFields.all fun f =>
      f == "risk_contribution" || f == "correlation" ||
        f == "efficient_frontier" || f == "portfolio_metrics") = true ∧
    ((portfolioMetricsFields.filter fun f => !(f.1 == "analysis_date")).all
      fun f => f.2 == "number") = true := by
  refine ⟨by decide, by decide, by decide⟩

/-- Claim C6, amended: the complete risk-analysis report contains exactly
the four analysis sections and nothing else; it has no excluded-assets
field, and every PortfolioMetricsResponse field other than the analysis_date
string is a plain number with no undefined marker. -/
theorem c6_report_shape :
    completeRiskAnalysisFields =
      ["risk_contribution", "correlation", "efficient_frontier",
        "portfolio_metrics"] ∧
    (completeRiskAnalysisFields.all fun f => !(f == "excluded_assets"))
      = true ∧
    (portfolioMetricsFields.all fun f =>
      f.2 == "number" || f.1 == "analysis_date") = true := by
  refine ⟨rfl, by decide, by decide⟩

/-- Map.set stores the entry retrievably: find? after mapSet returns it. -/
theorem find?_mapSet {α : Type} (c : Cache α) (key : String) (e : CacheEntry α) :
    (mapSet c key e).find? (fun p => p.1 == key) = some (key, e) := by
  induction c with
  | nil => simp [mapSet, List.find?]
  | cons p rest ih =>
    cases h : p.1 == key with
    | true => simp [mapSet, h, List.find?]
    | false => simp [mapSet, h, List.find?, ih]

/-- Map.delete removes the key: find? after filtering the key out fails. -/
theorem find?_filter_not_key {α : Type} (c : Cache α) (key : String) :
    (c.filter fun p => !(p.1 == key)).find? (fun p => p.1 == key) = none := by
  rw [List.find?_eq_none]
  intro x hx
  have h2 := (List.mem_filter.mp hx).2
  simp only [Bool.not_eq_true'] at h2
  simp [h2]

/-- cacheGet unfolded when the key is present in the cache. -/
theorem cacheGet_of_find?_some {α : Type} {c : Cache α} {key : String}
    {pe : String × CacheEntry α}
    (h : c.find? (fun p => p.1 == key) = some pe) (now : ℤ) :
    cacheGet c key now =
      if now - pe.2.timestamp > pe.2.ttl then
        (none, c.filter fun p => !(p.1 == key))
      else (some pe.2.data, c) := by
  unfold cacheGet
  rw [h]

/-- cacheGet unfolded when the key is absent from the cache. -/
theorem cacheGet_of_find?_none {α : Type} {c : Cache α} {key : String}
    (h : c.find? (fun p => p.1 == key) = none) (now : ℤ) :
    cacheGet c key now = (none, c) := by
  unfold cacheGet
  rw [h]

/-- Claim C9: after APICache.set of data under a key with a positive TTL in
minutes, a get before the TTL has elapsed returns exactly the stored data; a
get after the TTL has elapsed returns null and removes the entry; and a get
of a key that was never set returns null and leaves the cache unchanged. -/
theorem apiCache_set_get (α : Type) (c : Cache α) (key : String) (d : α)
    (ttlMinutes now1 now2 : ℤ) (hpos : 0 < ttlMinutes) :
    (now2 - now1 < ttlMinutes * 60 * 1000 →
      (cacheGet (cacheSet c key d ttlMinutes now1) key now2).1 = some d) ∧
    (now2 - now1 > ttlMinutes * 60 * 1000 →
      (cacheGet (cacheSet c key d ttlMinutes now1) key now2).1 = none ∧
      ((cacheGet (cacheSet c key d ttlMinutes now1) key now2).2.find?
          (fun p => p.1 == key)) = none) ∧
    (c.find? (fun p => p.1 == key) = none →
      cacheGet c key now2 = (none, c)) := by
  have hf : (cacheSet c key d ttlMinutes now1).find? (fun p => p.1 == key) =
      some (key, ⟨d, now1, ttlMinutes * 60 * 1000⟩) := find?_mapSet c key _
  have hg := cacheGet_of_find?_some hf now2
  refine ⟨fun hlt => ?_, fun hgt => ?_,
    fun hnone => cacheGet_of_find?_none hnone now2⟩
  · rw [hg, if_neg (show ¬ now2 - now1 > ttlMinutes * 60 * 1000 by omega)]
  · rw [hg, if_pos (show now2 - now1 > ttlMinutes * 60 * 1000 from hgt)]
    exact ⟨rfl, find?_filter_not_key _ _⟩

/-- Claim C9, witness: the semantics theorem at a concrete cache run. -/
theorem apiCache_set_get_witness :
    (0 : ℤ) < 10 ∧
    (((5 : ℤ) - 0 < 10 * 60 * 1000 →
        (cacheGet (cacheSet ([] : Cache ℚ) "k" 1 10 0) "k" 5).1 = some 1) ∧
      ((5 : ℤ) - 0 > 10 * 60 * 1000 →
        (cacheGet (cacheSet ([] : Cache ℚ) "k" 1 10 0) "k" 5).1 = none ∧
        ((cacheGet (cacheSet ([] : Cache ℚ) "k" 1 10 0) "k" 5).2.find?
            (fun p => p.1 == "k")) = none) ∧
      (([] : Cache ℚ).find? (fun p => p.1 == "k") = none →
        cacheGet ([] : Cache ℚ) "k" 5 = (none, ([] : Cache ℚ)))) :=
  ⟨by norm_num, apiCache_set_get ℚ [] "k" 1 10 0 5 (by norm_num)⟩

/-- Claim C7, counterexample: the cache key used by getCompleteRiskAnalysis
is built from the address and the lookback days only; it contains no
weight-snapshot hash. Consequently a second invocation with the same
address and lookbackDays within the TTL returns the previously cached report
(here the value 1) even when the fresh backend computation, after a change
of the weight snapshot, would return a different report (here 2). -/
theorem c7_counterexample :
    riskAnalysisKey "0xA" 365 = "risk:0xA:365" ∧
    (getCompleteRiskAnalysis
        ((getCompleteRiskAnalysis ([] : Cache ℚ) "0xA" 365 0 1).2)
        "0xA" 365 60000 2).1 = 1 ∧
    (1 : ℚ) ≠ 2 := by
  refine ⟨rfl, rfl, by norm_num⟩

/-- Claim C7, amended: getCompleteRiskAnalysis caches each computed report
for 10 minutes under a key built from the address and the lookback window
(with no weights hash), and a second invocation with the same
(address, lookbackDays) within the TTL returns the identical cached report
rather than the fresh computation. -/
theorem getCompleteRiskAnalysis_cache_roundtrip (α : Type) (addr : String)
    (days t1 t2 : ℤ) (f1 f2 : α) (h1 : t1 ≤ t2)
    (h2 : t2 - t1 ≤ 10 * 60 * 1000) :
    (getCompleteRiskAnalysis ([] : Cache α) addr days t1 f1).1 = f1 ∧
    (getCompleteRiskAnalysis ([] : Cache α) addr days t1 f1).2 =
      [(riskAnalysisKey addr days, ⟨f1, t1, 10 * 60 * 1000⟩)] ∧
    (getCompleteRiskAnalysis
        ((getCompleteRiskAnalysis ([] : Cache α) addr days t1 f1).2)
        addr days t2 f2).1 = f1 := by
  refine ⟨rfl, rfl, ?_⟩
  have hf : ([(riskAnalysisKey addr days,
        (⟨f1, t1, 10 * 60 * 1000⟩ : CacheEntry α))] : Cache α).find?
        (fun p => p.1 == riskAnalysisKey addr days) =
      some (riskAnalysisKey addr days, ⟨f1, t1, 10 * 60 * 1000⟩) := by
    simp [List.find?]
  show (getCompleteRiskAnalysis
      [(riskAnalysisKey addr days, ⟨f1, t1, 10 * 60 * 1000⟩)]
      addr days t2 f2).1 = f1
  unfold getCompleteRiskAnalysis
  rw [cacheGet_of_find?_some hf t2,
    if_neg (show ¬ t2 - t1 > 10 * 60 * 1000 by omega)]

/-- Claim C7, witness: the cache round trip at concrete inputs. -/
theorem getCompleteRiskAnalysis_cache_roundtrip_witness :
    (0 : ℤ) ≤ 60000 ∧ (60000 : ℤ) - 0 ≤ 10 * 60 * 1000 ∧
    ((getCompleteRiskAnalysis ([] : Cache ℚ) "0xB" 365 0 3).1 = 3 ∧
      (getCompleteRiskAnalysis ([] : Cache ℚ) "0xB" 365 0 3).2 =
        [(riskAnalysisKey "0xB" 365, ⟨3, 0, 10 * 60 * 1000⟩)] ∧
      (getCompleteRiskAnalysis
          ((getCompleteRiskAnalysis ([] : Cache ℚ) "0xB" 365 0 3).2)
          "0xB" 365 60000 4).1 = 3) :=
  ⟨by norm_num, by norm_num,
    getCompleteRiskAnalysis_cache_roundtrip ℚ "0xB" 365 0 60000 3 4
      (by norm_num) (by norm_num)⟩

/-- Claim C8: each of the four risk-analysis operations defaults the
lookback window to 365 days when the caller omits it (the request it builds
is the one for 365 days), and the accepted window range, modelled from the
spec as backend validation absent from src, is exactly 30 to 1095 days, a
range containing the default. -/
theorem c8_lookback_default_and_range :
    (∀ address : String,
      getCompleteRiskAnalysisUrl address none =
          getCompleteRiskAnalysisUrl address (some 365) ∧
        getRiskContributionUrl address none =
          getRiskContributionUrl address (some 365) ∧
        getCorrelationAnalysisUrl address none =
          getCorrelationAnalysisUrl address (some 365) ∧
        getEfficientFrontierUrl address none =
          getEfficientFrontierUrl address (some 365)) ∧
    (∀ d : ℤ, acceptedLookbackDays d = true ↔ 30 ≤ d ∧ d ≤ 1095) ∧
    acceptedLookbackDays 365 = true := by
  refine ⟨fun address => ⟨rfl, rfl, rfl, rfl⟩, fun d => ?_, by decide⟩
  simp [acceptedLookbackDays]

/-- Mapping the second components of an index-filtered enumeration yields a
sublist of the original list. -/
theorem map_snd_filter_enumFrom_sublist {α : Type} (p : ℕ × α → Bool) :
    ∀ (l : List α) (n : ℕ),
      (((List.enumFrom n l).filter p).map Prod.snd).Sublist l := by
  intro l
  induction l with
  | nil => intro n; simp
  | cons a t ih =>
    intro n
    rw [List.enumFrom_cons, List.filter_cons]
    by_cases h : p (n, a) = true
    · rw [if_pos h, List.map_cons]
      exact (ih (n + 1)).cons₂ a
    · rw [if_neg h]
      exact (ih (n + 1)).cons a

/-- Counting the multiples of s among the indices below n gives the ceiling
of n divided by s. -/
theorem countP_range_mod_eq (s : ℕ) (hs : 0 < s) :
    ∀ n : ℕ, (List.range n).countP (fun i => i % s == 0) = (n + s - 1) / s := by
  intro n
  induction n with
  | zero =>
    simp only [List.range_zero, List.countP_nil]
    rw [Nat.div_eq_of_lt (show 0 + s - 1 < s by omega)]
  | succ n ih =>
    rw [List.range_succ, List.countP_append, ih, List.countP_cons,
      List.countP_nil]
    have h1 : n + 1 + s - 1 = n + s - 1 + 1 := by omega
    rw [h1, Nat.succ_div]
    have h2 : n + s - 1 + 1 = n + s := by omega
    rw [h2]
    have h3 : s ∣ n + s ↔ n % s = 0 := by
      rw [Nat.dvd_add_self_right]
      exact Nat.dvd_iff_mod_eq_zero
    by_cases hm : n % s = 0
    · rw [if_pos (by simpa using hm), if_pos (h3.mpr hm)]
    · rw [if_neg (by simpa using hm), if_neg (fun hc => hm (h3.mp hc))]

/-- The length of the downsampled list equals the count of step multiples
among the indices. -/
theorem downsample_length_eq {α : Type} (l : List α) (s : ℕ) :
    (((l.enum).filter (fun p => p.1 % s == 0)).map Prod.snd).length =
      (List.range l.length).countP (fun i => i % s == 0) := by
  rw [List.length_map, ← List.countP_eq_length_filter]
  have h1 : List.map Prod.fst l.enum = List.range l.length := by
    rw [List.enum_eq_enumFrom, List.enumFrom_map_fst, ← List.range_eq_range']
  rw [← h1, List.countP_map]
  rfl

/-- Claim C10: for maxPoints at least 1, downsampleData returns a
subsequence of the input of length at most maxPoints, and returns the input
unchanged whenever its length is at most maxPoints. -/
theorem downsampleData_spec {α : Type} (data : List α) (maxPoints : ℕ)
    (h : 1 ≤ maxPoints) :
    (downsampleData data maxPoints).Sublist data ∧
    (downsampleData data maxPoints).length ≤ maxPoints ∧
    (data.length ≤ maxPoints → downsampleData data maxPoints = data) := by
  by_cases hc : data.length ≤ maxPoints
  · simp only [downsampleData, if_pos hc]
    exact ⟨List.Sublist.refl data, hc, fun _ => trivial⟩
  · have hlt : maxPoints < data.length := Nat.lt_of_not_le hc
    refine ⟨?_, ?_, fun hcon => absurd hcon hc⟩
    · simp only [downsampleData, if_neg hc]
      exact map_snd_filter_enumFrom_sublist _ data 0
    · simp only [downsampleData, if_neg hc]
      rw [downsample_length_eq]
      set s := (data.length + maxPoints - 1) / maxPoints with hs
      have hs0 : 1 ≤ s := by
        rw [hs, Nat.one_le_div_iff (show 0 < maxPoints from h)]
        omega
      rw [countP_range_mod_eq s hs0]
      have hle : data.length ≤ s * maxPoints := by
        have hd := Nat.div_add_mod (data.length + maxPoints - 1) maxPoints
        have hm : (data.length + maxPoints - 1) % maxPoints < maxPoints :=
          Nat.mod_lt _ (show 0 < maxPoints from h)
        rw [← hs, Nat.mul_comm maxPoints s] at hd
        generalize s * maxPoints = t at hd ⊢
        omega
      have hlast : data.length + s - 1 < (maxPoints + 1) * s := by
        have hexp : (maxPoints + 1) * s = s * maxPoints + s := by ring
        rw [hexp]
        generalize s * maxPoints = t at hle ⊢
        omega
      exact Nat.lt_succ_iff.mp ((Nat.div_lt_iff_lt_mul hs0).mpr hlast)

/-- Claim C10, witness: downsampling five elements to at most two keeps the
indices divisible by three. -/
theorem downsampleData_spec_witness :
    1 ≤ 2 ∧
    ((downsampleData ([10, 20, 30, 40, 50] : List ℕ) 2).Sublist
        [10, 20, 30, 40, 50] ∧
      (downsampleData ([10, 20, 30, 40, 50] : List ℕ) 2).length ≤ 2 ∧
      (([10, 20, 30, 40, 50] : List ℕ).length ≤ 2 →
        downsampleData ([10, 20, 30, 40, 50] : List ℕ) 2 =
          [10, 20, 30, 40, 50])) :=
  ⟨by decide, downsampleData_spec [10, 20, 30, 40, 50] 2 (by decide)⟩

end DefiHedge
